import Mathlib

/-!
Shallow embedding of libavformat/ftp.c (FFmpeg FTP protocol client).

The session record `FTP` mirrors the fields of `FTPContext` that the verified
claims are about (`conn_control`, `conn_data`, `position`, `filesize`, `state`)
together with the `is_streamed` flag of the owning `URLContext` handle.
External collaborators (the TCP transport, the command engine replies) are
modelled as explicit environment values passed to each operation: every
transport read or write result, and every matched reply code, is an input.

Machine integers: all the C arithmetic here is on `int`/`int64_t` values far
from overflow (byte counts, reply codes, file offsets), so they are embedded
as `Int` without wrap-around.
-/

/-- AVERROR(EIO) on a platform where AVERROR negates errno; EIO = 5. -/
def AVERROR_eio : Int := -5

/-- AVERROR(EINVAL); EINVAL = 22. -/
def AVERROR_einval : Int := -22

/-- AVERROR(EACCES); EACCES = 13. -/
def AVERROR_eacces : Int := -13

/-- AVERROR_EXIT = FFERRTAG of the four characters E, X, I, T. -/
def AVERROR_exit_code : Int := -1414092869

/-- Whence value SEEK_SET. -/
def SEEK_SET : Int := 0

/-- Whence value SEEK_CUR. -/
def SEEK_CUR : Int := 1

/-- Whence value SEEK_END. -/
def SEEK_END : Int := 2

/-- Whence value AVSEEK_SIZE = 0x10000. -/
def AVSEEK_SIZE : Int := 65536

/-- The FTPState enumeration of ftp.c. -/
inductive FTPState where
  | UNKNOWN
  | READY
  | DOWNLOADING
  | UPLOADING
  | DISCONNECTED
deriving DecidableEq, Repr

/-- The session state: the FTPContext fields the claims concern, plus the
is_streamed flag of the URLContext handle. Connection handles are modelled by
their presence (NULL versus non-NULL). -/
structure FTP where
  conn_control : Bool
  conn_data : Bool
  position : Int
  filesize : Int
  state : FTPState
  is_streamed : Bool
deriving DecidableEq, Repr

/-- Environment for one call of ftp_connect_control_connection: the result of
ffurl_open on the control socket, whether ftp_status matched the 220 banner,
and the results of ftp_auth and ftp_type. -/
structure CtrlEnv where
  open_res : Int
  got220 : Bool
  auth_res : Int
  type_res : Int
deriving DecidableEq, Repr

/-- Environment for one call of ftp_connect_data_connection: results of
ftp_passive_mode, ffurl_open on the data socket, and ftp_restart. -/
structure DataEnv where
  pasv_res : Int
  open_res : Int
  rest_res : Int
deriving DecidableEq, Repr

/-- The control-connection environment describes a fully successful
reconnect: socket opened, 220 banner seen, authentication and TYPE I ok. -/
def ctrlOk (e : CtrlEnv) : Prop :=
  0 ≤ e.open_res ∧ e.got220 = true ∧ 0 ≤ e.auth_res ∧ 0 ≤ e.type_res

instance (e : CtrlEnv) : Decidable (ctrlOk e) := by
  unfold ctrlOk; infer_instance

/-- The data-connection environment describes a successful connect:
PASV parsed, socket opened, REST (if issued) accepted. -/
def dataOk (e : DataEnv) : Prop :=
  0 ≤ e.pasv_res ∧ 0 ≤ e.open_res ∧ 0 ≤ e.rest_res

instance (e : DataEnv) : Decidable (dataOk e) := by
  unfold dataOk; infer_instance

/-- ftp_close_both_connections: close both channels, zero the position,
transition to DISCONNECTED. -/
def ftp_close_both_connections (s : FTP) : FTP :=
  { s with conn_control := false, conn_data := false,
           position := 0, state := FTPState.DISCONNECTED }

/-- ftp_connect_control_connection: when the control channel is absent, open
it, expect the 220 banner (absence is access-denied), authenticate, set
TYPE I. The handle becomes present exactly when ffurl_open succeeds. -/
def ftp_connect_control_connection (e : CtrlEnv) (s : FTP) : Int × FTP :=
  if s.conn_control = true then (0, s)
  else if e.open_res < 0 then (e.open_res, s)
  else
    let s1 := { s with conn_control := true }
    if e.got220 = false then (AVERROR_eacces, s1)
    else if e.auth_res < 0 then (e.auth_res, s1)
    else if e.type_res < 0 then (e.type_res, s1)
    else (0, s1)

/-- ftp_connect_data_connection: when the data channel is absent, run PASV,
open the data socket, and issue REST when position is nonzero; then
transition to READY. -/
def ftp_connect_data_connection (e : DataEnv) (s : FTP) : Int × FTP :=
  if s.conn_data = true then (0, { s with state := FTPState.READY })
  else if e.pasv_res < 0 then (e.pasv_res, s)
  else if e.open_res < 0 then (e.open_res, s)
  else
    let s1 := { s with conn_data := true }
    if s1.position ≠ 0 ∧ e.rest_res < 0 then (e.rest_res, s1)
    else (0, { s1 with state := FTPState.READY })

/-- ftp_retrieve: send RETR; a matched code of 0 is an I/O error, any other
engine result (150, or a negative transport error, which the source tests
with a bare logical not) transitions to DOWNLOADING. -/
def ftp_retrieve (res : Int) (s : FTP) : Int × FTP :=
  if res = 0 then (AVERROR_eio, s)
  else (0, { s with state := FTPState.DOWNLOADING })

/-- ftp_store: send STOR; same shape as ftp_retrieve, transitioning to
UPLOADING. -/
def ftp_store (res : Int) (s : FTP) : Int × FTP :=
  if res = 0 then (AVERROR_eio, s)
  else (0, { s with state := FTPState.UPLOADING })

/-- ftp_abort: close both connections, then reopen and reauthenticate the
control connection only. -/
def ftp_abort (e : CtrlEnv) (s : FTP) : Int × FTP :=
  let s1 := ftp_close_both_connections s
  let r := ftp_connect_control_connection e s1
  if r.1 < 0 then (r.1, r.2) else (0, r.2)

/-- ftp_seek: AVSEEK_SIZE returns the filesize with no side effect; SET, CUR
and END resolve a target (END fails with I/O when the size is unknown);
other whence values are invalid-argument.  A streamed handle fails with I/O.
The target is clamped to be nonnegative and, when the size is known, at most
the filesize; a move to a different offset aborts first, then records the
new position. -/
def ftp_seek (e : CtrlEnv) (s : FTP) (pos : Int) (whence : Int) : Int × FTP :=
  if whence = AVSEEK_SIZE then (s.filesize, s)
  else
    let resolved : Except Int Int :=
      if whence = SEEK_SET then Except.ok pos
      else if whence = SEEK_CUR then Except.ok (s.position + pos)
      else if whence = SEEK_END then
        (if s.filesize < 0 then Except.error AVERROR_eio
         else Except.ok (s.filesize + pos))
      else Except.error AVERROR_einval
    match resolved with
    | Except.error err => (err, s)
    | Except.ok np0 =>
      if s.is_streamed = true then (AVERROR_eio, s)
      else
        let np1 := max 0 np0
        let np := if 0 ≤ s.filesize then min s.filesize np1 else np1
        if np ≠ s.position then
          let r := ftp_abort e s
          if r.1 < 0 then (r.1, r.2)
          else (np, { r.2 with position := np })
        else (np, s)

/-- Environment for one iteration of the ftp_read loop: the data-connection
environment, the RETR engine result, the ffurl_read result on the data
channel, and control environments for the two potential aborts (the one at
end of file or in the reconnect branch, and the one inside the seek back). -/
structure ReadEnv where
  denv : DataEnv
  retr_res : Int
  data_res : Int
  abort_env : CtrlEnv
  seek_env : CtrlEnv
deriving DecidableEq, Repr

/-- Outcome of one body of the ftp_read loop: a return to the caller, or a
goto retry. -/
inductive ReadOut where
  | ret (v : Int) (s : FTP)
  | again (s : FTP)
deriving DecidableEq, Repr

/-- ftp_read / ftp_write stage: if DISCONNECTED, prime the data connection. -/
def stage_connect (de : DataEnv) (s : FTP) : Except (Int × FTP) FTP :=
  if s.state = FTPState.DISCONNECTED then
    let r := ftp_connect_data_connection de s
    if r.1 < 0 then Except.error (r.1, r.2) else Except.ok r.2
  else Except.ok s

/-- ftp_read stage: if READY, issue RETR. -/
def stage_retr (res : Int) (s : FTP) : Except (Int × FTP) FTP :=
  if s.state = FTPState.READY then
    let r := ftp_retrieve res s
    if r.1 < 0 then Except.error (r.1, r.2) else Except.ok r.2
  else Except.ok s

/-- ftp_write stage: if READY, issue STOR. -/
def stage_stor (res : Int) (s : FTP) : Except (Int × FTP) FTP :=
  if s.state = FTPState.READY then
    let r := ftp_store res s
    if r.1 < 0 then Except.error (r.1, r.2) else Except.ok r.2
  else Except.ok s

/-- The downloading part of one ftp_read loop body: read from the data
channel; on a nonnegative count advance the position and, at or past the
filesize, abort (an abort failure turns the result into I/O); on a zero
count short of the filesize on a seekable handle, abort, seek back to the
saved position, and retry once (the retry_done latch).  The Nat component
counts executions of that reconnect branch. -/
def read_data_part (e : ReadEnv) (retry_done : Bool) (s2 : FTP) : ReadOut × Nat :=
  if s2.conn_data = true ∧ s2.state = FTPState.DOWNLOADING then
    let rd := e.data_res
    let after : Except (Int × FTP) FTP :=
      if 0 ≤ rd then
        let s3 := { s2 with position := s2.position + rd }
        if s3.filesize ≤ s3.position then
          let r := ftp_abort e.abort_env s3
          if r.1 < 0 then Except.error (AVERROR_eio, r.2) else Except.ok r.2
        else Except.ok s3
      else Except.ok s2
    match after with
    | Except.error p => (ReadOut.ret p.1 p.2, 0)
    | Except.ok s4 =>
      if rd = 0 ∧ s4.position < s4.filesize ∧ s4.is_streamed = false then
        let pos := s4.position
        let r := ftp_abort e.abort_env s4
        if r.1 < 0 then (ReadOut.ret r.1 r.2, 1)
        else
          let r2 := ftp_seek e.seek_env r.2 pos SEEK_SET
          if r2.1 < 0 then (ReadOut.ret r2.1 r2.2, 1)
          else if retry_done = false then (ReadOut.again r2.2, 1)
          else (ReadOut.ret rd r2.2, 1)
      else (ReadOut.ret rd s4, 0)
  else (ReadOut.ret AVERROR_eio s2, 0)

/-- One body of the ftp_read loop (everything under the retry label). -/
def ftp_read_body (e : ReadEnv) (retry_done : Bool) (s : FTP) : ReadOut × Nat :=
  match stage_connect e.denv s with
  | Except.error p => (ReadOut.ret p.1 p.2, 0)
  | Except.ok s1 =>
    match stage_retr e.retr_res s1 with
    | Except.error p => (ReadOut.ret p.1 p.2, 0)
    | Except.ok s2 => read_data_part e retry_done s2

/-- ftp_read: run the loop body; a goto retry runs it once more with the
retry_done latch set (the latch makes a second goto impossible, so the
second again branch below is dead).  The result carries the returned value,
the final session state, and the total number of reconnect-branch
executions. -/
def ftp_read (e1 e2 : ReadEnv) (s : FTP) : Int × FTP × Nat :=
  match ftp_read_body e1 false s with
  | (ReadOut.ret v s1, n) => (v, s1, n)
  | (ReadOut.again s1, n) =>
    match ftp_read_body e2 true s1 with
    | (ReadOut.ret v s2, m) => (v, s2, n + m)
    | (ReadOut.again s2, m) => (0, s2, n + m)

/-- ftp_write: prime the data connection when DISCONNECTED, issue STOR when
READY, then write; a positive count advances the position and raises the
filesize to at least the position. -/
def ftp_write (de : DataEnv) (stor_res : Int) (wr : Int) (s : FTP) : Int × FTP :=
  match stage_connect de s with
  | Except.error p => p
  | Except.ok s1 =>
    match stage_stor stor_res s1 with
    | Except.error p => p
    | Except.ok s2 =>
      if s2.conn_data = true ∧ s2.state = FTPState.UPLOADING then
        if 0 < wr then
          (wr, { s2 with position := s2.position + wr,
                         filesize := max s2.filesize (s2.position + wr) })
        else (wr, s2)
      else (AVERROR_eio, s2)

/-- ftp_open on a fresh handle: initialise the context, connect and
authenticate the control channel, resolve the working directory, probe the
file size (an unknown size on a read handle, or a write handle without
ftp-write-seekable, marks the stream non-seekable).  On failure both
channels are closed.  dirOk abstracts the ftp_current_dir result and
sizeRes the ftp_file_size result (none when no 213 reply matched). -/
def ftp_open (ce : CtrlEnv) (dirOk : Bool) (sizeRes : Option Int)
    (readFlag writeFlag writeSeekable : Bool) : Int × FTP :=
  let s0 : FTP := ⟨false, false, 0, -1, FTPState.DISCONNECTED, false⟩
  let r := ftp_connect_control_connection ce s0
  if r.1 < 0 then (r.1, { r.2 with conn_control := false, conn_data := false })
  else if dirOk = false then
    (AVERROR_eio, { r.2 with conn_control := false, conn_data := false })
  else
    let s2 := match sizeRes with
      | some n => { r.2 with filesize := n }
      | none => { r.2 with filesize := -1 }
    let streamed : Bool := (sizeRes.isNone && readFlag) || (!writeSeekable && writeFlag)
    (0, { s2 with is_streamed := streamed })

/-- ftp_close: close both connections, return success. -/
def ftp_close (s : FTP) : Int × FTP :=
  (0, ftp_close_both_connections s)

/-- Session states reachable through any sequence of the stream operations,
starting from ftp_open on a fresh handle, under arbitrary environments. -/
inductive Reachable : FTP → Prop where
  | opened (ce : CtrlEnv) (dirOk : Bool) (sizeRes : Option Int) (rf wf ws : Bool) :
      Reachable (ftp_open ce dirOk sizeRes rf wf ws).2
  | readStep (e1 e2 : ReadEnv) (s : FTP) :
      Reachable s → Reachable (ftp_read e1 e2 s).2.1
  | writeStep (de : DataEnv) (stor wr : Int) (s : FTP) :
      Reachable s → Reachable (ftp_write de stor wr s).2
  | seekStep (ce : CtrlEnv) (pos w : Int) (s : FTP) :
      Reachable s → Reachable (ftp_seek ce s pos w).2
  | closeStep (s : FTP) : Reachable s → Reachable (ftp_close s).2
  | abortStep (ce : CtrlEnv) (s : FTP) :
      Reachable s → Reachable (ftp_abort ce s).2

/-- The data-channel invariant, strengthened to cover READY: in the three
states that presume a primed data channel, the handle is present. -/
def dataInv (s : FTP) : Prop :=
  (s.state = FTPState.READY ∨ s.state = FTPState.DOWNLOADING ∨
   s.state = FTPState.UPLOADING) → s.conn_data = true

/-!
Control-channel line reader (ftp_getc and ftp_get_line).

The transport is an oracle: a finite list of ffurl_read outcomes on the
control socket, each either an error code or a chunk of bytes (an empty
chunk is a zero-length read, which ftp_getc maps to the -1 sentinel).  An
exhausted oracle behaves like a zero-length read.  Bytes are Nat values
0..255 as read through the uint8_t buffer.
-/

/-- One ffurl_read outcome on the control connection. -/
inductive RR where
  | err (e : Int)
  | data (bs : List Nat)
deriving DecidableEq, Repr

/-- The oracle never produces AVERROR_EXIT as a transport error.  This is
the contract of the transport: its interrupt callback is
ftp_conn_control_block_control, which returns the block flag, and ftp_getc
only calls ffurl_read when that flag is zero. -/
def noExitEnv (env : List RR) : Bool :=
  env.all fun r => match r with
    | RR.err e => decide (e ≠ AVERROR_exit_code)
    | RR.data _ => true

/-- Append a character to the line if there is room (q - line less than
line_size - 1 in the source); the character is dropped otherwise, but the
scan continues to the newline either way. -/
def pushChar (acc : List Nat) (c : Nat) (ls : Nat) : List Nat :=
  if acc.length < ls - 1 then acc ++ [c] else acc

/-- At the newline, drop one trailing carriage return from the accumulated
line (q greater than line and q[-1] a CR in the source). -/
def stripCR (acc : List Nat) : List Nat :=
  if acc.getLast? = some 13 then acc.dropLast else acc

/-- Result of scanning the buffered bytes for a newline. -/
inductive ScanRes where
  | line (l : List Nat) (rest : List Nat)
  | exhausted (acc : List Nat)
deriving DecidableEq, Repr

/-- Consume buffered control bytes until a newline or exhaustion,
accumulating line characters. -/
def scanBuf (ls : Nat) : List Nat → List Nat → ScanRes
  | [], acc => ScanRes.exhausted acc
  | c :: rest, acc =>
    if c = 10 then ScanRes.line (stripCR acc) rest
    else scanBuf ls rest (pushChar acc c ls)

/-- Result of ftp_get_line: the return value, the unread tail of the control
buffer, the remaining transport oracle, and the accumulated line. -/
structure GLOut where
  res : Int
  buf : List Nat
  env : List RR
  line : List Nat
deriving DecidableEq, Repr

/-- The ftp_get_line loop over ftp_getc.  A buffer exhaustion with the block
flag set returns AVERROR_EXIT; otherwise ffurl_read refills the buffer (an
error is passed through, a zero-length read becomes -1).  Reading any
non-newline character clears the block flag for the rest of the call, so
after the first refill the flag is always clear: the recursive call passes
false.  The flag matters only while no character of the line has been
consumed. -/
def getLineAux (ls : Nat) : List RR → List Nat → Bool → List Nat → GLOut
  | [], buf, flag, acc =>
    match scanBuf ls buf acc with
    | ScanRes.line l rest => ⟨0, rest, [], l⟩
    | ScanRes.exhausted acc2 =>
      if (if buf = [] then flag else false) = true then
        ⟨AVERROR_exit_code, [], [], acc2⟩
      else ⟨-1, [], [], acc2⟩
  | r :: tl, buf, flag, acc =>
    match scanBuf ls buf acc with
    | ScanRes.line l rest => ⟨0, rest, r :: tl, l⟩
    | ScanRes.exhausted acc2 =>
      if (if buf = [] then flag else false) = true then
        ⟨AVERROR_exit_code, [], r :: tl, acc2⟩
      else
        match r with
        | RR.err e => ⟨e, [], tl, acc2⟩
        | RR.data [] => ⟨-1, [], tl, acc2⟩
        | RR.data (c :: cs) => getLineAux ls tl (c :: cs) false acc2

/-- ftp_get_line: run the loop with an empty accumulated line; every return
path of the source restores the block flag to its value at entry, which the
wrapper returns as the second component. -/
def ftp_get_line (env : List RR) (buf : List Nat) (flag : Bool) (ls : Nat) :
    GLOut × Bool :=
  (getLineAux ls env buf flag [], flag)

/-!
PASV and PWD reply parsing, and authentication.

Strings are embedded as List Char.  The replies handed to these parsers are
NUL-free C strings (one logical reply line).  av_strtok (libavutil) and
atoi (libc) are not among the sources; where their behaviour matters it is
modelled from the specification, as noted on each definition.
-/

/-- Modelled from the spec: atoi of the C library (an external collaborator;
not among the sources).  Skips leading white space, consumes an optional
sign and then decimal digits, stopping at the first non-digit; an input
without digits yields 0. -/
def atoiDigits : List Char → Int → Int
  | [], acc => acc
  | c :: cs, acc =>
    if '0' ≤ c ∧ c ≤ '9' then
      atoiDigits cs (acc * 10 + ((c.toNat : Int) - 48))
    else acc

/-- Modelled from the spec: see atoiDigits. -/
def atoiModel (s : List Char) : Int :=
  let s1 := s.dropWhile fun c =>
    c == ' ' || c == '\t' || c == '\n' || c == '\r' || c == '\x0b' || c == '\x0c'
  match s1 with
  | '-' :: rest => - atoiDigits rest 0
  | '+' :: rest => atoiDigits rest 0
  | _ => atoiDigits s1 0

/-- Modelled from the spec: the comma and colon splitting that the source
delegates to av_strtok (libavutil/avstring.c, not among the sources).  The
spec describes PASV parsing as splitting the parenthesized segment on
commas into the fields h1,h2,h3,h4,p1,p2, and credentials as splitting on a
colon into user and password; this is a plain split at each delimiter. -/
def splitAll (d : Char) : List Char → List (List Char)
  | [] => [[]]
  | c :: cs =>
    if c = d then [] :: splitAll d cs
    else
      match splitAll d cs with
      | [] => [[c]]
      | f :: rest => (c :: f) :: rest

/-- The scan of the 227 reply in ftp_passive_mode: walk the reply once; each
open parenthesis restarts the collected segment (start points just past it),
and the first close parenthesis ends the scan.  The accumulator is the
segment collected since the most recent open parenthesis, none while no
open parenthesis has been seen.  Reaching the close parenthesis yields the
segment; reaching the end of the reply without one is the failure path (in
that case the source would read an uninitialised end pointer; every such
reply is treated as malformed). -/
def pasv_scan : List Char → Option (List Char) → Option (List Char)
  | [], _ => none
  | c :: cs, cur =>
    if c = '(' then pasv_scan cs (some [])
    else if c = ')' then cur
    else
      match cur with
      | none => pasv_scan cs none
      | some a => pasv_scan cs (some (a ++ [c]))

/-- ftp_passive_mode: on an unmatched PASV reply (engine result 0) or a
malformed reply, the data port becomes -1 with an I/O error; otherwise the
port is p1 * 256 + p2 from the fifth and sixth fields of the parenthesized
segment.  Returns the error code and the resulting server_data_port. -/
def ftp_passive_mode (send_res : Int) (res : List Char) : Int × Int :=
  if send_res = 0 then (AVERROR_eio, -1)
  else
    match pasv_scan res none with
    | none => (AVERROR_eio, -1)
    | some content =>
      let fields := splitAll ',' content
      if 6 ≤ fields.length then
        (0, atoiModel (fields.getD 4 []) * 256 + atoiModel (fields.getD 5 []))
      else (AVERROR_eio, -1)

/-- Modelled from the spec: the PASV segment as the specification words it,
"Locate the first open parenthesis and next close parenthesis in the reply
line", the fields lying between them. -/
def pasv_content_first_paren (res : List Char) : Option (List Char) :=
  match res.dropWhile (fun c => c ≠ '(') with
  | [] => none
  | _ :: rest =>
    if rest.any (fun c => c = ')') then some (rest.takeWhile (fun c => c ≠ ')'))
    else none

/-- Modelled from the spec: the port as the claim states it, computed from
the fifth and sixth comma-separated fields between the first open
parenthesis and the next close parenthesis. -/
def ftp_passive_mode_first_paren (send_res : Int) (res : List Char) : Int × Int :=
  if send_res = 0 then (AVERROR_eio, -1)
  else
    match pasv_content_first_paren res with
    | none => (AVERROR_eio, -1)
    | some content =>
      let fields := splitAll ',' content
      if 6 ≤ fields.length then
        (0, atoiModel (fields.getD 4 []) * 256 + atoiModel (fields.getD 5 []))
      else (AVERROR_eio, -1)

/-- The suffix of a list after its last open parenthesis. -/
def last_open_seg (l : List Char) : List Char :=
  (l.reverse.takeWhile fun c => c ≠ '(').reverse

/-- The segment the source actually extracts, stated directly: everything
after the last open parenthesis that precedes the first close parenthesis
of the reply (none when there is no close parenthesis, or no open
parenthesis before it). -/
def pasv_content_spec (res : List Char) : Option (List Char) :=
  let pre := res.takeWhile fun c => c ≠ ')'
  if (res.any fun c => c = ')') && (pre.any fun c => c = '(') then
    some (last_open_seg pre)
  else none

/-- The scan of the 257 reply in ftp_current_dir: find the first double
quote, then collect characters until the second; none when the reply lacks
a second quote. -/
def pwd_scan : List Char → Option (List Char) → Option (List Char)
  | [], _ => none
  | c :: cs, none =>
    if c = '"' then pwd_scan cs (some []) else pwd_scan cs none
  | c :: cs, some acc =>
    if c = '"' then some acc else pwd_scan cs (some (acc ++ [c]))

/-- The quoted segment stated directly: the characters between the first
double quote and the next one. -/
def pwd_quoted (res : List Char) : Option (List Char) :=
  match res.dropWhile (fun c => c ≠ '"') with
  | [] => none
  | _ :: rest =>
    if rest.any (fun c => c = '"') then some (rest.takeWhile (fun c => c ≠ '"'))
    else none

/-- ftp_current_dir: on an unmatched PWD reply or one without a closing
quote, fail with I/O leaving the path unchanged; otherwise copy the quoted
segment, first truncating one trailing slash when the character before the
closing quote is a slash (end[-1] in the source; the guard end greater than
res always holds, the closing quote being at index at least 1).  The copy
through av_strlcpy is modelled as the string itself (the spec: copy the
substring between the quotes). -/
def ftp_current_dir (send_res : Int) (res : List Char) (old_path : List Char) :
    Int × List Char :=
  if send_res = 0 then (AVERROR_eio, old_path)
  else
    match pwd_scan res none with
    | none => (AVERROR_eio, old_path)
    | some content =>
      if content.getLast? = some '/' then (0, content.dropLast)
      else (0, content)

/-- Credential resolution of ftp_auth: split the credentials on a colon into
user and password; an absent user means anonymous login with the configured
anonymous password, or the nopassword placeholder.  The colon split is
modelled from the spec (av_strtok is not among the sources): the user is
the part before the first colon, the password the part after it, absent
when there is no colon; an empty credentials string has no user. -/
def ftp_auth_creds (credencials : List Char) (anonPass : Option (List Char)) :
    List Char × Option (List Char) :=
  let user0 : Option (List Char) :=
    match credencials.takeWhile (fun c => c ≠ ':') with
    | [] => none
    | u => some u
  let pass0 : Option (List Char) :=
    match credencials.dropWhile (fun c => c ≠ ':') with
    | [] => none
    | _ :: rest => match rest with | [] => none | p => some p
  match user0 with
  | none =>
    ("anonymous".toList,
     some (match anonPass with | some a => a | none => "nopassword".toList))
  | some u => (u, pass0)

/-- Reply handling of ftp_auth: send USER; a 331 requires a password (PASS
is sent when one is available, access-denied otherwise); any other nonzero
engine result falls through; a final engine result of 0 is access-denied,
anything else succeeds.  Returns the result and the commands sent. -/
def ftp_auth_replies (user : List Char) (pass : Option (List Char))
    (user_res pass_res : Int) : Int × List (List Char) :=
  let sent1 := ["USER ".toList ++ user]
  if user_res = 331 then
    match pass with
    | some p =>
      let sent2 := sent1 ++ ["PASS ".toList ++ p]
      if pass_res = 0 then (AVERROR_eacces, sent2) else (0, sent2)
    | none => (AVERROR_eacces, sent1)
  else if user_res = 0 then (AVERROR_eacces, sent1)
  else (0, sent1)

/-- ftp_auth: resolve the credentials, then run the USER and PASS exchange. -/
def ftp_auth (credencials : List Char) (anonPass : Option (List Char))
    (user_res pass_res : Int) : Int × List (List Char) :=
  let up := ftp_auth_creds credencials anonPass
  ftp_auth_replies up.1 up.2 user_res pass_res

/-- The session state carried by a loop outcome, whether returned or about
to be retried. -/
def outState : ReadOut → FTP
  | ReadOut.ret _ s => s
  | ReadOut.again s => s

/-- The clamped target the seek claim describes: resolve the base offset
from the whence mode, clamp below at 0 and, when the filesize is known,
above at the filesize. -/
def seek_target (s : FTP) (pos w : Int) : Int :=
  let base := if w = SEEK_SET then pos
    else if w = SEEK_CUR then s.position + pos
    else s.filesize + pos
  let np1 := max 0 base
  if 0 ≤ s.filesize then min s.filesize np1 else np1

/-!
Concrete sample environments and states used by counterexamples and
witnesses.
-/

/-- A control environment in which the reconnect fully succeeds. -/
def ctrlEnvOK : CtrlEnv := ⟨0, true, 0, 0⟩

/-- A data-connection environment in which the connect fully succeeds. -/
def dataEnvOK : DataEnv := ⟨0, 0, 0⟩

/-- A read iteration whose data-channel read yields 10 bytes. -/
def readEnvEOF : ReadEnv := ⟨dataEnvOK, 150, 10, ctrlEnvOK, ctrlEnvOK⟩

/-- A read iteration whose data-channel read yields 0 bytes. -/
def readEnvZero : ReadEnv := ⟨dataEnvOK, 150, 0, ctrlEnvOK, ctrlEnvOK⟩

/-- A read iteration whose data-channel read yields 3 bytes. -/
def readEnvMid : ReadEnv := ⟨dataEnvOK, 150, 3, ctrlEnvOK, ctrlEnvOK⟩

/-- Downloading at offset 0 of a 10-byte file. -/
def sDL : FTP := ⟨true, true, 0, 10, FTPState.DOWNLOADING, false⟩

/-- Downloading at offset 2 of a 10-byte file. -/
def sDLmid : FTP := ⟨true, true, 2, 10, FTPState.DOWNLOADING, false⟩

/-- Downloading at offset 4 of a 10-byte file. -/
def sDL4 : FTP := ⟨true, true, 4, 10, FTPState.DOWNLOADING, false⟩

/-- A session whose file size is unknown. -/
def sUnk : FTP := ⟨true, false, 3, -1, FTPState.DISCONNECTED, false⟩

/-- A disconnected seekable session at offset 5 of a 10-byte file. -/
def sSeek : FTP := ⟨true, false, 5, 10, FTPState.DISCONNECTED, false⟩

/-- A reachable state: open a 10-byte file, then read 3 bytes, which leaves
the session DOWNLOADING. -/
def sReach : FTP :=
  (ftp_read readEnvMid readEnvMid
    (ftp_open ctrlEnvOK true (some 10) true false false).2).2.1

/-!
Theorems.  Helper lemmas first, then one theorem per claim (with its
counterexample and witness where required).
-/

/-- ftp_connect_control_connection touches no session field other than the
control handle. -/
theorem ctrl_connect_keeps (e : CtrlEnv) (s : FTP) :
    (ftp_connect_control_connection e s).2.conn_data = s.conn_data ∧
    (ftp_connect_control_connection e s).2.position = s.position ∧
    (ftp_connect_control_connection e s).2.filesize = s.filesize ∧
    (ftp_connect_control_connection e s).2.state = s.state ∧
    (ftp_connect_control_connection e s).2.is_streamed = s.is_streamed := by
  simp only [ftp_connect_control_connection]
  split_ifs <;> simp

/-- Under a fully successful control environment,
ftp_connect_control_connection succeeds and the control handle is present. -/
theorem ctrl_connect_ok (e : CtrlEnv) (s : FTP) (h : ctrlOk e) :
    ftp_connect_control_connection e s = (0, { s with conn_control := true }) := by
  obtain ⟨h1, h2, h3, h4⟩ := h
  simp [ftp_connect_control_connection, h2, not_lt.mpr h1, not_lt.mpr h3,
    not_lt.mpr h4]
  intro hc
  cases s; simp_all

/-- ftp_abort always zeroes the position, closes the data channel and leaves
the state DISCONNECTED, whatever the control environment. -/
theorem abort_fields (e : CtrlEnv) (s : FTP) :
    (ftp_abort e s).2.position = 0 ∧
    (ftp_abort e s).2.state = FTPState.DISCONNECTED ∧
    (ftp_abort e s).2.conn_data = false ∧
    (ftp_abort e s).2.filesize = s.filesize ∧
    (ftp_abort e s).2.is_streamed = s.is_streamed := by
  have h := ctrl_connect_keeps e (ftp_close_both_connections s)
  simp [ftp_close_both_connections] at h
  simp only [ftp_abort, ftp_close_both_connections]
  refine ⟨?_, ?_, ?_, ?_, ?_⟩ <;>
    split <;>
      simp [h.1, h.2.1, h.2.2.1, h.2.2.2.1, h.2.2.2.2]

/-- Under a fully successful control environment, ftp_abort succeeds and
yields the reconnected state: control present, data absent, position zero,
DISCONNECTED; filesize and seekability survive. -/
theorem abort_ok (e : CtrlEnv) (s : FTP) (h : ctrlOk e) :
    ftp_abort e s =
      (0, ⟨true, false, 0, s.filesize, FTPState.DISCONNECTED, s.is_streamed⟩) := by
  simp only [ftp_abort]
  rw [ctrl_connect_ok e _ h]
  simp [ftp_close_both_connections]

/-- C10: for every offset, seeking with SEEK_END on a session whose filesize
is unknown (-1) returns the I/O error immediately, before the seekability
check, and the session is returned unchanged. -/
theorem ftp_seek_end_unknown_size (e : CtrlEnv) (s : FTP) (pos : Int)
    (h : s.filesize = -1) :
    ftp_seek e s pos SEEK_END = (AVERROR_eio, s) := by
  unfold ftp_seek
  norm_num [SEEK_END, AVSEEK_SIZE, SEEK_SET, SEEK_CUR, h]

/-- C10 witness: sUnk has unknown size and is even marked seekable, yet
SEEK_END fails with I/O and changes nothing. -/
theorem ftp_seek_end_unknown_size_witness :
    sUnk.filesize = -1 ∧ ftp_seek ctrlEnvOK sUnk 7 SEEK_END = (AVERROR_eio, sUnk) :=
  ⟨by decide, ftp_seek_end_unknown_size ctrlEnvOK sUnk 7 (by decide)⟩

/-- C2 counterexample: an abort that fully succeeds does clear the position.
At entry the position is 5; after ftp_abort it is 0, because
ftp_close_both_connections zeroes it before the control channel is
reopened. -/
theorem ftp_abort_clears_position_counterexample :
    (ftp_abort ctrlEnvOK sSeek).1 = 0 ∧
    sSeek.position = 5 ∧
    (ftp_abort ctrlEnvOK sSeek).2.position = 0 ∧
    (ftp_abort ctrlEnvOK sSeek).2.position ≠ sSeek.position := by decide

/-- C2 (amended): ftp_abort closes both channels and reopens the control
channel, and it always resets position to 0 and state to DISCONNECTED (the
close of both connections clears them); callers such as seek and the read
reconnect path restore the desired offset afterward.  When the control
environment fully succeeds the abort returns 0 and only the control handle
is present, with filesize and seekability preserved. -/
theorem ftp_abort_resets_position (e : CtrlEnv) (s : FTP) :
    (ftp_abort e s).2.position = 0 ∧
    (ftp_abort e s).2.state = FTPState.DISCONNECTED ∧
    (ftp_abort e s).2.conn_data = false ∧
    (ctrlOk e →
      ftp_abort e s =
        (0, ⟨true, false, 0, s.filesize, FTPState.DISCONNECTED, s.is_streamed⟩)) := by
  have h := abort_fields e s
  exact ⟨h.1, h.2.1, h.2.2.1, fun hok => abort_ok e s hok⟩

/-- C2 witness: the amended claim at a concrete session and a fully
successful control environment. -/
theorem ftp_abort_resets_position_witness :
    ctrlOk ctrlEnvOK ∧
    ftp_abort ctrlEnvOK sSeek =
      (0, ⟨true, false, 0, 10, FTPState.DISCONNECTED, false⟩) :=
  ⟨by decide, (ftp_abort_resets_position ctrlEnvOK sSeek).2.2.2 (by decide)⟩

/-- C3: on a seekable stream, a seek with whence SET, CUR or END (END
requiring a known filesize, claim C10 covering the unknown case) under a
successful reconnect environment returns the target clamped below at 0 and,
when the filesize is known, above at the filesize, and records it as the new
position; and any whence outside SET, CUR, END and AVSEEK_SIZE returns
invalid-argument with the session unchanged. -/
theorem ftp_seek_clamp_and_inval (e : CtrlEnv) (s : FTP) (pos w : Int) :
    (s.is_streamed = false → ctrlOk e →
      (w = SEEK_SET ∨ w = SEEK_CUR ∨ w = SEEK_END) →
      (w = SEEK_END → 0 ≤ s.filesize) →
      (ftp_seek e s pos w).1 = seek_target s pos w ∧
      (ftp_seek e s pos w).2.position = seek_target s pos w)
    ∧ (w ≠ SEEK_SET → w ≠ SEEK_CUR → w ≠ SEEK_END → w ≠ AVSEEK_SIZE →
      ftp_seek e s pos w = (AVERROR_einval, s)) := by
  constructor
  · intro hstr hok hw hend
    have habort := abort_ok e s hok
    rcases hw with hw | hw | hw <;> subst hw
    · unfold ftp_seek seek_target
      simp only [SEEK_SET, SEEK_CUR, SEEK_END, AVSEEK_SIZE]
      norm_num [hstr]
      split_ifs with h1 h2 <;> simp_all [habort]
    · unfold ftp_seek seek_target
      simp only [SEEK_SET, SEEK_CUR, SEEK_END, AVSEEK_SIZE]
      norm_num [hstr]
      split_ifs with h1 h2 <;> simp_all [habort]
    · have hfs : 0 ≤ s.filesize := hend rfl
      unfold ftp_seek seek_target
      simp only [SEEK_SET, SEEK_CUR, SEEK_END, AVSEEK_SIZE]
      norm_num [hstr, not_lt.mpr hfs]
      split_ifs with h1 h2 <;> simp_all [habort]
  · intro h0 h1 h2 h3
    unfold ftp_seek
    simp [h0, h1, h2, h3]

/-- C3 witness: from offset 5 of a 10-byte seekable file, seek to 12 with
SEEK_SET clamps to 10, which is returned and stored; whence 7 is
invalid-argument. -/
theorem ftp_seek_clamp_and_inval_witness :
    ((ftp_seek ctrlEnvOK sSeek 12 SEEK_SET).1 = 10 ∧
      (ftp_seek ctrlEnvOK sSeek 12 SEEK_SET).2.position = 10) ∧
    ftp_seek ctrlEnvOK sSeek 3 7 = (AVERROR_einval, sSeek) := by
  constructor
  · have h := (ftp_seek_clamp_and_inval ctrlEnvOK sSeek 12 SEEK_SET).1
      (by decide) (by decide) (Or.inl rfl) (by decide)
    have ht : seek_target sSeek 12 SEEK_SET = 10 := by decide
    exact ⟨ht ▸ h.1, ht ▸ h.2⟩
  · exact (ftp_seek_clamp_and_inval ctrlEnvOK sSeek 3 7).2
      (by decide) (by decide) (by decide) (by decide)

/-- C1 counterexample: a successful read of 10 bytes that reaches the
filesize.  The claim predicts position advances by 10 to equal the filesize;
the code aborts at end of file, so the returned count is 10 but the
position is 0 afterwards. -/
theorem ftp_read_eof_position_counterexample :
    (ftp_read readEnvEOF readEnvEOF sDL).1 = 10 ∧
    sDL.position = 0 ∧
    (ftp_read readEnvEOF readEnvEOF sDL).2.1.position = 0 ∧
    (ftp_read readEnvEOF readEnvEOF sDL).2.1.position ≠ sDL.position + 10 ∧
    (ftp_read readEnvEOF readEnvEOF sDL).2.1.position ≠ sDL.filesize := by decide

/-- C1 (amended): while DOWNLOADING with the data channel present, a read
that returns n greater than 0 bytes advances the position by exactly n when
the new position is still short of the filesize; when it reaches or passes
the filesize, the count n is still returned (under a successful abort
environment) but the end-of-file abort resets position to 0 and the state
to DISCONNECTED, so position does not stay at the filesize. -/
theorem ftp_read_position_advance (e1 e2 : ReadEnv) (s : FTP) (n : Int)
    (hst : s.state = FTPState.DOWNLOADING) (hcd : s.conn_data = true)
    (hn : e1.data_res = n) (hpos : 0 < n) :
    (s.position + n < s.filesize →
      ftp_read e1 e2 s = (n, { s with position := s.position + n }, 0)) ∧
    (s.filesize ≤ s.position + n → ctrlOk e1.abort_env →
      ftp_read e1 e2 s =
        (n, ⟨true, false, 0, s.filesize, FTPState.DISCONNECTED, s.is_streamed⟩, 0)) := by
  constructor
  · intro hlt
    unfold ftp_read ftp_read_body stage_connect stage_retr read_data_part
    simp [hst, hcd, hn, le_of_lt hpos, not_le.mpr hlt, hpos.ne']
  · intro hge hok
    have habort := abort_ok e1.abort_env
      ({ s with position := s.position + n }) hok
    simp only [hcd, hst] at habort
    unfold ftp_read ftp_read_body stage_connect stage_retr read_data_part
    simp [hst, hcd, hn, le_of_lt hpos, hge, habort, hpos.ne']

/-- C1 witness: both branches of the amended claim at concrete sessions:
reading 3 bytes at offset 2 of a 10-byte file advances the position to 5;
reading 10 bytes at offset 2 returns 10 with the session aborted. -/
theorem ftp_read_position_advance_witness :
    ftp_read readEnvMid readEnvMid sDLmid = (3, { sDLmid with position := 5 }, 0) ∧
    ftp_read readEnvEOF readEnvEOF sDLmid =
      (10, ⟨true, false, 0, 10, FTPState.DISCONNECTED, false⟩, 0) :=
  ⟨by
    have h := (ftp_read_position_advance readEnvMid readEnvMid sDLmid 3
      rfl rfl rfl (by decide)).1 (by decide)
    simpa using h,
   by
    have h := (ftp_read_position_advance readEnvEOF readEnvEOF sDLmid 10
      rfl rfl rfl (by decide)).2 (by decide) (by decide)
    simpa using h⟩

/-- The reconnect sequence of the ftp_read zero-byte branch: under
successful control environments, the abort succeeds, and the seek back to
the saved position lands exactly there, leaving a DISCONNECTED session with
only the control channel, at the saved position. -/
theorem reconnect_tail (ea es : CtrlEnv) (s4 : FTP)
    (hoka : ctrlOk ea) (hoks : ctrlOk es) (hstr : s4.is_streamed = false)
    (hp0 : 0 ≤ s4.position) (hpf : s4.position ≤ s4.filesize) :
    (ftp_abort ea s4).1 = 0 ∧
    ftp_seek es (ftp_abort ea s4).2 s4.position SEEK_SET =
      (s4.position,
        ⟨true, false, s4.position, s4.filesize, FTPState.DISCONNECTED,
          s4.is_streamed⟩) := by
  have hab := abort_ok ea s4 hoka
  have hF : (0 : Int) ≤ s4.filesize := le_trans hp0 hpf
  refine ⟨by rw [hab], ?_⟩
  rw [hab]
  have hab2 := abort_ok es
    (⟨true, false, 0, s4.filesize, FTPState.DISCONNECTED, false⟩ : FTP) hoks
  unfold ftp_seek
  by_cases hp : s4.position = 0
  · simp [SEEK_SET, SEEK_CUR, SEEK_END, AVSEEK_SIZE, hstr, hF,
      max_eq_right hp0, min_eq_right hpf, hab2, hp]
  · simp [SEEK_SET, SEEK_CUR, SEEK_END, AVSEEK_SIZE, hstr, hF,
      max_eq_right hp0, min_eq_right hpf, hab2, hp]

/-- C4 counterexample: while DOWNLOADING at offset 4 of a 10-byte seekable
file, the data channel yields 0 bytes on both the first read and the
retried read.  The claim predicts exactly one reconnect attempt; the code
executes the abort-and-seek reconnect branch twice, because the retry_done
latch is tested only after the reconnect has already been performed. -/
theorem ftp_read_two_reconnects_counterexample :
    (ftp_read readEnvZero readEnvZero sDL4).1 = 0 ∧
    (ftp_read readEnvZero readEnvZero sDL4).2.2 = 2 ∧
    (2 : Nat) ≠ 1 := by decide

/-- C4 (amended): while DOWNLOADING on a seekable stream with the data
channel present and position short of the filesize, a zero-byte read
triggers the reconnect branch (abort, then seek back to the saved position)
and the read is retried exactly once; when the retried read also returns 0
bytes the function runs the abort-and-seek branch a second time — so two
reconnect attempts in all, not one — and then returns 0 to the caller
without retrying again, leaving the session DISCONNECTED at the saved
position. -/
theorem ftp_read_retry_behavior (e1 e2 : ReadEnv) (s : FTP)
    (hst : s.state = FTPState.DOWNLOADING) (hcd : s.conn_data = true)
    (hstr : s.is_streamed = false)
    (hp0 : 0 ≤ s.position) (hpf : s.position < s.filesize)
    (hz1 : e1.data_res = 0) (hz2 : e2.data_res = 0)
    (hok1a : ctrlOk e1.abort_env) (hok1s : ctrlOk e1.seek_env)
    (hok2a : ctrlOk e2.abort_env) (hok2s : ctrlOk e2.seek_env)
    (hde : dataOk e2.denv) (hretr : e2.retr_res ≠ 0) :
    ftp_read e1 e2 s =
      (0, ⟨true, false, s.position, s.filesize, FTPState.DISCONNECTED, false⟩, 2) := by
  have h1 := reconnect_tail e1.abort_env e1.seek_env
    (⟨s.conn_control, true, s.position, s.filesize, FTPState.DOWNLOADING, false⟩ : FTP)
    hok1a hok1s rfl hp0 (le_of_lt hpf)
  have hconn : ftp_connect_data_connection e2.denv
      (⟨true, false, s.position, s.filesize, FTPState.DISCONNECTED, false⟩ : FTP) =
      (0, ⟨true, true, s.position, s.filesize, FTPState.READY, false⟩) := by
    simp [ftp_connect_data_connection, not_lt.mpr hde.1, not_lt.mpr hde.2.1,
      not_lt.mpr hde.2.2]
  have hretr2 : ftp_retrieve e2.retr_res
      (⟨true, true, s.position, s.filesize, FTPState.READY, false⟩ : FTP) =
      (0, ⟨true, true, s.position, s.filesize, FTPState.DOWNLOADING, false⟩) := by
    simp [ftp_retrieve, hretr]
  have h2 := reconnect_tail e2.abort_env e2.seek_env
    (⟨true, true, s.position, s.filesize, FTPState.DOWNLOADING, false⟩ : FTP)
    hok2a hok2s rfl hp0 (le_of_lt hpf)
  unfold ftp_read ftp_read_body stage_connect stage_retr read_data_part
  simp [hst, hcd, hstr, hz1, hz2, hpf, not_le.mpr hpf, h1.1, h1.2, h2.1, h2.2,
    hconn, hretr2, not_lt.mpr hp0]

/-- C4 witness: the amended claim at offset 4 of a 10-byte file with fully
successful recovery environments. -/
theorem ftp_read_retry_behavior_witness :
    ftp_read readEnvZero readEnvZero sDL4 =
      (0, ⟨true, false, 4, 10, FTPState.DISCONNECTED, false⟩, 2) := by
  have h := ftp_read_retry_behavior readEnvZero readEnvZero sDL4
    rfl rfl rfl (by decide) (by decide) rfl rfl
    (by decide) (by decide) (by decide) (by decide) (by decide) (by decide)
  simpa using h

/-- A session whose data channel is present satisfies the data invariant. -/
theorem dataInv_of_conn (s : FTP) (h : s.conn_data = true) : dataInv s :=
  fun _ => h

/-- A DISCONNECTED session satisfies the data invariant vacuously. -/
theorem dataInv_of_state_disc (s : FTP) (h : s.state = FTPState.DISCONNECTED) :
    dataInv s := by
  intro hc
  rcases hc with h' | h' | h' <;> rw [h] at h' <;> cases h'

/-- Closing both connections reestablishes the data invariant. -/
theorem dataInv_close (s : FTP) : dataInv (ftp_close_both_connections s) :=
  dataInv_of_state_disc _ (by simp [ftp_close_both_connections])

/-- ftp_abort reestablishes the data invariant. -/
theorem dataInv_abort (e : CtrlEnv) (s : FTP) : dataInv (ftp_abort e s).2 :=
  dataInv_of_state_disc _ (abort_fields e s).2.1

/-- ftp_connect_data_connection preserves the data invariant. -/
theorem dataInv_connect_data (e : DataEnv) (s : FTP) (h : dataInv s) :
    dataInv (ftp_connect_data_connection e s).2 := by
  simp only [ftp_connect_data_connection]
  split_ifs with h1 h2 h3 h4 <;>
    first
    | exact h
    | (apply dataInv_of_conn; simp [h1])

/-- ftp_retrieve preserves the data invariant when the data channel is
present (as it is at its call site, guarded by the READY state). -/
theorem dataInv_retrieve (r : Int) (s : FTP) (h : s.conn_data = true) :
    dataInv (ftp_retrieve r s).2 := by
  simp only [ftp_retrieve]
  split_ifs <;> exact dataInv_of_conn _ (by simp [h])

/-- ftp_store preserves the data invariant when the data channel is
present. -/
theorem dataInv_store (r : Int) (s : FTP) (h : s.conn_data = true) :
    dataInv (ftp_store r s).2 := by
  simp only [ftp_store]
  split_ifs <;> exact dataInv_of_conn _ (by simp [h])

/-- ftp_seek preserves the data invariant. -/
theorem dataInv_seek (e : CtrlEnv) (s : FTP) (pos w : Int) (h : dataInv s) :
    dataInv (ftp_seek e s pos w).2 := by
  simp only [ftp_seek]
  split
  · exact h
  · split
    · exact h
    · split_ifs <;>
        first
        | exact h
        | exact dataInv_abort e s

/-- The connect stage of read and write preserves the data invariant on both
its outcomes. -/
theorem dataInv_stage_connect (de : DataEnv) (s : FTP) (h : dataInv s) :
    (∀ p, stage_connect de s = Except.error p → dataInv p.2) ∧
    (∀ s1, stage_connect de s = Except.ok s1 → dataInv s1) := by
  have hcd := dataInv_connect_data de s h
  simp only [stage_connect]
  split_ifs with h1 h2 <;> constructor <;> intro x hx <;> simp_all

/-- The RETR stage preserves the data invariant on both its outcomes. -/
theorem dataInv_stage_retr (r : Int) (s : FTP) (h : dataInv s) :
    (∀ p, stage_retr r s = Except.error p → dataInv p.2) ∧
    (∀ s1, stage_retr r s = Except.ok s1 → dataInv s1) := by
  by_cases h1 : s.state = FTPState.READY
  · have hc : s.conn_data = true := h (Or.inl h1)
    have hr := dataInv_retrieve r s hc
    simp only [stage_retr, h1, if_true]
    split_ifs with h2 <;> constructor <;> intro x hx <;> simp_all
  · simp only [stage_retr, h1]
    constructor <;> intro x hx <;> simp_all

/-- The STOR stage preserves the data invariant on both its outcomes. -/
theorem dataInv_stage_stor (r : Int) (s : FTP) (h : dataInv s) :
    (∀ p, stage_stor r s = Except.error p → dataInv p.2) ∧
    (∀ s1, stage_stor r s = Except.ok s1 → dataInv s1) := by
  by_cases h1 : s.state = FTPState.READY
  · have hc : s.conn_data = true := h (Or.inl h1)
    have hr := dataInv_store r s hc
    simp only [stage_stor, h1, if_true]
    split_ifs with h2 <;> constructor <;> intro x hx <;> simp_all
  · simp only [stage_stor, h1]
    constructor <;> intro x hx <;> simp_all

/-- The downloading part of the read loop preserves the data invariant on
the state it hands back, whether returned or retried. -/
theorem dataInv_read_data (e : ReadEnv) (b : Bool) (s2 : FTP) (h : dataInv s2) :
    dataInv (outState (read_data_part e b s2).1) := by
  by_cases hq : s2.conn_data = true ∧ s2.state = FTPState.DOWNLOADING
  · simp only [read_data_part, if_pos hq]
    split
    · next p heq =>
        dsimp only [outState]
        split_ifs at heq <;>
          first
          | (injection heq with heq2; subst heq2; exact dataInv_abort _ _)
          | cases heq
    · next s4 heq =>
        have hs4 : dataInv s4 := by
          split_ifs at heq <;>
            first
            | (injection heq with heq2; subst heq2; exact dataInv_abort _ _)
            | (injection heq with heq2; subst heq2;
               exact dataInv_of_conn _ (by simp [hq.1]))
            | (injection heq with heq2; subst heq2; exact h)
            | cases heq
        split_ifs <;>
          dsimp only [outState] <;>
            first
            | exact hs4
            | exact dataInv_abort _ _
            | exact dataInv_seek _ _ _ _ (dataInv_abort _ _)
  · simp only [read_data_part, if_neg hq]
    dsimp only [outState]
    exact h

/-- One body of the read loop preserves the data invariant. -/
theorem dataInv_body (e : ReadEnv) (b : Bool) (s : FTP) (h : dataInv s) :
    dataInv (outState (ftp_read_body e b s).1) := by
  have hc := dataInv_stage_connect e.denv s h
  simp only [ftp_read_body]
  split
  · next p heq =>
      dsimp only [outState]
      exact hc.1 p heq
  · next s1 heq =>
      have h1 := hc.2 s1 heq
      have hr := dataInv_stage_retr e.retr_res s1 h1
      split
      · next p heq2 =>
          dsimp only [outState]
          exact hr.1 p heq2
      · next s2 heq2 => exact dataInv_read_data e b s2 (hr.2 s2 heq2)

/-- ftp_read preserves the data invariant. -/
theorem dataInv_read (e1 e2 : ReadEnv) (s : FTP) (h : dataInv s) :
    dataInv (ftp_read e1 e2 s).2.1 := by
  have hb1 := dataInv_body e1 false s h
  simp only [ftp_read]
  split
  · next v s1 n heq =>
      rw [heq] at hb1
      dsimp only [outState] at hb1
      exact hb1
  · next s1 n heq =>
      have h1 : dataInv s1 := by
        rw [heq] at hb1
        dsimp only [outState] at hb1
        exact hb1
      have hb2 := dataInv_body e2 true s1 h1
      split
      · next v s2 m heq2 =>
          rw [heq2] at hb2
          dsimp only [outState] at hb2
          exact hb2
      · next s2 m heq2 =>
          rw [heq2] at hb2
          dsimp only [outState] at hb2
          exact hb2

/-- ftp_write preserves the data invariant. -/
theorem dataInv_write (de : DataEnv) (stor wr : Int) (s : FTP) (h : dataInv s) :
    dataInv (ftp_write de stor wr s).2 := by
  have hc := dataInv_stage_connect de s h
  simp only [ftp_write]
  split
  · next p heq => exact hc.1 p heq
  · next s1 heq =>
      have h1 := hc.2 s1 heq
      have hs := dataInv_stage_stor stor s1 h1
      split
      · next p heq2 => exact hs.1 p heq2
      · next s2 heq2 =>
          have h2 := hs.2 s2 heq2
          split_ifs with hq hw
          · exact dataInv_of_conn _ (by simp [hq.1])
          · exact h2
          · exact h2

/-- Every result of ftp_open, success or failure, is DISCONNECTED. -/
theorem ftp_open_state (ce : CtrlEnv) (dirOk : Bool) (sizeRes : Option Int)
    (rf wf ws : Bool) :
    (ftp_open ce dirOk sizeRes rf wf ws).2.state = FTPState.DISCONNECTED := by
  have hk := ctrl_connect_keeps ce ⟨false, false, 0, -1, FTPState.DISCONNECTED, false⟩
  simp only [ftp_open]
  cases sizeRes <;> split_ifs <;> simp_all

/-- Every reachable session satisfies the data invariant. -/
theorem reachable_dataInv (s : FTP) (h : Reachable s) : dataInv s := by
  induction h with
  | opened ce dirOk sizeRes rf wf ws =>
      exact dataInv_of_state_disc _ (ftp_open_state ce dirOk sizeRes rf wf ws)
  | readStep e1 e2 s hr ih => exact dataInv_read e1 e2 s ih
  | writeStep de stor wr s hr ih => exact dataInv_write de stor wr s ih
  | seekStep ce pos w s hr ih => exact dataInv_seek ce s pos w ih
  | closeStep s hr ih => exact dataInv_close s
  | abortStep ce s hr ih => exact dataInv_abort ce s

/-- C9: in every session state reachable by any sequence of open, read,
write, seek, close and abort under arbitrary environments, the DOWNLOADING
and UPLOADING states imply the data-channel handle is present. -/
theorem ftp_data_channel_invariant (s : FTP) (h : Reachable s)
    (hs : s.state = FTPState.DOWNLOADING ∨ s.state = FTPState.UPLOADING) :
    s.conn_data = true :=
  reachable_dataInv s h (Or.inr hs)

/-- C9 witness: a concrete reachable DOWNLOADING session (open a 10-byte
file, read 3 bytes) has the data channel present. -/
theorem ftp_data_channel_invariant_witness :
    sReach.state = FTPState.DOWNLOADING ∧ sReach.conn_data = true :=
  ⟨by decide,
   ftp_data_channel_invariant sReach
     (Reachable.readStep readEnvMid readEnvMid _
       (Reachable.opened ctrlEnvOK true (some 10) true false false))
     (Or.inl (by decide))⟩

/-- C5: ftp_auth sends USER; a matched 331 requires a password — PASS is
sent when one is available (failing with access-denied only when the engine
then matches 0), and the call fails with access-denied when none is; a
matched 230 succeeds with no PASS sent; and a matched 0 for USER is
access-denied. -/
theorem ftp_auth_reply_handling (u p : List Char) (r2 : Int) :
    (ftp_auth_replies u (some p) 331 r2 =
      ((if r2 = 0 then AVERROR_eacces else 0),
        ["USER ".toList ++ u, "PASS ".toList ++ p])) ∧
    ftp_auth_replies u none 331 r2 = (AVERROR_eacces, ["USER ".toList ++ u]) ∧
    (∀ po, ftp_auth_replies u po 230 r2 = (0, ["USER ".toList ++ u])) ∧
    (∀ po, ftp_auth_replies u po 0 r2 = (AVERROR_eacces, ["USER ".toList ++ u])) := by
  refine ⟨?_, ?_, ?_, ?_⟩
  · simp only [ftp_auth_replies]
    norm_num
    split_ifs <;> simp
  · simp [ftp_auth_replies]
  · intro po
    simp [ftp_auth_replies]
  · intro po
    simp [ftp_auth_replies]

/-- Scanning for a line feed stops at the first element failing the
predicate that is inside the prefix; appending more elements after such a
list does not change its takeWhile. -/
theorem takeWhile_append_mem (p : Char → Bool) (t : List Char) (a : Char)
    (hpa : p a = false) :
    ∀ l : List Char, a ∈ l → (l ++ t).takeWhile p = l.takeWhile p := by
  intro l
  induction l with
  | nil => intro h; cases h
  | cons x xs ih =>
    intro ha
    by_cases hx : p x = true
    · rcases List.mem_cons.mp ha with rfl | hmem
      · simp [hx] at hpa
      · simp [List.takeWhile_cons, hx, ih hmem]
    · simp [List.takeWhile_cons, hx]

/-- When every element of the first list satisfies the predicate, takeWhile
of an append runs into the second list. -/
theorem takeWhile_append_all (p : Char → Bool) (t : List Char) :
    ∀ l : List Char, (∀ a ∈ l, p a = true) →
      (l ++ t).takeWhile p = l ++ t.takeWhile p := by
  intro l
  induction l with
  | nil => intro _; simp
  | cons x xs ih =>
    intro h
    have hx : p x = true := h x (by simp)
    simp only [List.cons_append, List.takeWhile_cons, hx, if_true]
    rw [ih (fun a ha => h a (by simp [ha]))]

/-- The accumulating phase of the PWD scan collects exactly up to the next
double quote. -/
theorem pwd_scan_some :
    ∀ (res acc : List Char),
      pwd_scan res (some acc) =
        (if (res.any fun c => c = '"') = true
         then some (acc ++ res.takeWhile (fun c => c ≠ '"')) else none) := by
  intro res
  induction res with
  | nil => intro acc; simp [pwd_scan]
  | cons c cs ih =>
    intro acc
    by_cases hc : c = '"'
    · subst hc
      simp [pwd_scan]
    · simp only [pwd_scan, if_neg hc, ih (acc ++ [c]), List.any_cons,
        List.takeWhile_cons]
      split_ifs <;> simp_all

/-- The PWD scan equals its direct description: the segment between the
first double quote and the next one. -/
theorem pwd_scan_eq_quoted (res : List Char) :
    pwd_scan res none = pwd_quoted res := by
  induction res with
  | nil => rfl
  | cons c cs ih =>
    by_cases hc : c = '"'
    · subst hc
      simp [pwd_scan, pwd_quoted, pwd_scan_some]
    · simp only [pwd_scan, if_neg hc, ih]
      simp [pwd_quoted, hc]

/-- C7 counterexample: a 257 reply whose quoted path is the single slash.
The claim predicts the path is kept as a slash; the code strips the slash
unconditionally (the guard end greater than res always holds), leaving the
empty path. -/
theorem ftp_current_dir_root_counterexample :
    ftp_current_dir 257 (("257 \"/\"").toList) (("/old").toList) = (0, []) ∧
    ([] : List Char) ≠ ['/'] := by decide

/-- C7 (amended): ftp_current_dir copies the segment between the first pair
of double quotes, stripping one trailing slash whenever the quoted path
ends with a slash — including when stripping leaves the empty path (there
is no exception for that case); a reply without a closing quote, or an
unmatched PWD, fails with I/O and leaves the path unchanged. -/
theorem ftp_current_dir_strip (send_res : Int) (res old : List Char) :
    ftp_current_dir send_res res old =
      if send_res = 0 then (AVERROR_eio, old)
      else
        match pwd_quoted res with
        | none => (AVERROR_eio, old)
        | some content =>
          (0, if content.getLast? = some '/' then content.dropLast else content) := by
  unfold ftp_current_dir
  rw [pwd_scan_eq_quoted]
  split_ifs with h1
  · rfl
  · cases hq : pwd_quoted res <;> simp [hq] <;> split_ifs <;> rfl

/-- Prepending an open parenthesis restarts the segment: the suffix after
the last open parenthesis ignores everything before, and is the whole tail
when the tail has no open parenthesis. -/
theorem last_open_seg_cons_open (p : List Char) :
    last_open_seg ('(' :: p) = if '(' ∈ p then last_open_seg p else p := by
  unfold last_open_seg
  by_cases hp : '(' ∈ p
  · have hmem : '(' ∈ p.reverse := by simpa using hp
    simp only [hp, if_true, List.reverse_cons]
    rw [takeWhile_append_mem _ _ '(' (by simp) p.reverse hmem]
  · simp only [hp, if_false, List.reverse_cons]
    rw [takeWhile_append_all _ _ p.reverse ?_]
    · simp
    · intro a ha
      have ha2 : a ∈ p := by simpa using ha
      have hne : a ≠ '(' := fun he => hp (he ▸ ha2)
      simp [hne]

/-- Prepending any character does not change the suffix after the last open
parenthesis, when one is present in the tail. -/
theorem last_open_seg_cons_other (c : Char) (p : List Char) (hp : '(' ∈ p) :
    last_open_seg (c :: p) = last_open_seg p := by
  have hmem : '(' ∈ p.reverse := by simpa using hp
  unfold last_open_seg
  rw [List.reverse_cons, takeWhile_append_mem _ _ '(' (by simp) p.reverse hmem]

/-- The PASV scan equals its direct description: when the reply has a close
parenthesis preceded by at least one open parenthesis, the segment after
the last such open parenthesis; with no open parenthesis the accumulator
advanced by the prefix (none when no open parenthesis was ever seen); with
no close parenthesis, failure. -/
theorem pasv_scan_eq_spec :
    ∀ (res : List Char) (cur : Option (List Char)),
      pasv_scan res cur =
        if (res.any fun c => c = ')') = true then
          (if ((res.takeWhile fun c => c ≠ ')').any fun c => c = '(') = true then
            some (last_open_seg (res.takeWhile fun c => c ≠ ')'))
          else
            match cur with
            | none => none
            | some a => some (a ++ (res.takeWhile fun c => c ≠ ')')))
        else none := by
  intro res
  induction res with
  | nil => intro cur; simp [pasv_scan]
  | cons c cs ih =>
    intro cur
    by_cases hc1 : c = '('
    · subst hc1
      have hl : pasv_scan ('(' :: cs) cur = pasv_scan cs (some []) := by
        simp [pasv_scan]
      rw [hl, ih (some [])]
      by_cases h3 : ')' ∈ cs
      · by_cases h4 : '(' ∈ (cs.takeWhile fun x => x ≠ ')')
        · simp_all [last_open_seg_cons_open]
        · simp_all [last_open_seg_cons_open]
      · simp [h3]
    · by_cases hc2 : c = ')'
      · subst hc2
        have hl : pasv_scan (')' :: cs) cur = cur := by
          simp [pasv_scan]
        rw [hl]
        cases cur <;> simp
      · have hl : pasv_scan (c :: cs) cur =
            pasv_scan cs (match cur with
              | none => none
              | some a => some (a ++ [c])) := by
          cases cur <;> simp [pasv_scan, hc1, hc2]
        rw [hl, ih]
        by_cases h3 : ')' ∈ cs
        · by_cases h4 : '(' ∈ (cs.takeWhile fun x => x ≠ ')')
          · simp_all [last_open_seg_cons_other]
          · cases cur <;> simp_all
        · simp [h3, hc2]

/-- C6 counterexample: a 227 reply with a stray open parenthesis and a comma
before the real parenthesized group.  Reading the fields from the first open
parenthesis, as the claim states, gives port 4 * 256 + 5 = 1029; the code
restarts its segment at every open parenthesis, so it reads the fields from
the last one before the close parenthesis and computes 5 * 256 + 6 = 1286. -/
theorem ftp_passive_mode_first_paren_counterexample :
    ftp_passive_mode 227 (("227 (9,(1,2,3,4,5,6).").toList) = (0, 1286) ∧
    ftp_passive_mode_first_paren 227 (("227 (9,(1,2,3,4,5,6).").toList) = (0, 1029) ∧
    (1286 : Int) ≠ 1029 := by decide

/-- C6 (amended): ftp_passive_mode computes server_data_port as
p1 * 256 + p2 from the fifth and sixth comma-separated fields of the
segment between the last open parenthesis preceding the first close
parenthesis and that close parenthesis; on an unmatched PASV reply, a reply
without such a parenthesis pair, or fewer than six fields, it sets the port
to -1 and returns the I/O error.  (The comma split and atoi are modelled
from the spec, which describes a plain split on commas; av_strtok and atoi
are not among the sources.) -/
theorem ftp_passive_mode_port (send_res : Int) (res : List Char) :
    ftp_passive_mode send_res res =
      if send_res = 0 then (AVERROR_eio, -1)
      else
        match pasv_content_spec res with
        | none => (AVERROR_eio, -1)
        | some content =>
          let fields := splitAll ',' content
          if 6 ≤ fields.length then
            (0, atoiModel (fields.getD 4 []) * 256 + atoiModel (fields.getD 5 []))
          else (AVERROR_eio, -1) := by
  unfold ftp_passive_mode pasv_content_spec
  rw [pasv_scan_eq_spec res none]
  split_ifs with h1 h2 h3 <;> simp_all

/-- With the block flag clear and a transport that never reports
AVERROR_EXIT, ftp_get_line cannot return AVERROR_EXIT: every path yields a
line, a transport error, or the end-of-input sentinel. -/
theorem getLineAux_no_exit (ls : Nat) :
    ∀ (env : List RR) (buf acc : List Nat), noExitEnv env = true →
      (getLineAux ls env buf false acc).res ≠ AVERROR_exit_code := by
  intro env
  induction env with
  | nil =>
    intro buf acc hne
    simp only [getLineAux]
    cases hsc : scanBuf ls buf acc with
    | line l rest => simp [hsc, AVERROR_exit_code]
    | exhausted acc2 => simp [hsc, AVERROR_exit_code]
  | cons r tl ih =>
    intro buf acc hne
    have hne2 : noExitEnv tl = true := by
      simp only [noExitEnv, List.all_cons, Bool.and_eq_true] at hne
      exact hne.2
    simp only [getLineAux]
    cases hsc : scanBuf ls buf acc with
    | line l rest => simp [hsc, AVERROR_exit_code]
    | exhausted acc2 =>
      cases r with
      | err e =>
        have he : e ≠ AVERROR_exit_code := by
          simp only [noExitEnv, List.all_cons, Bool.and_eq_true,
            decide_eq_true_eq] at hne
          exact hne.1
        simp [hsc, he]
      | data bs =>
        cases bs with
        | nil => simp [hsc, AVERROR_exit_code]
        | cons c cs =>
          simp only [hsc, ite_self, if_neg (by simp : ¬(false = true))]
          exact ih (c :: cs) acc2 hne2

/-- With at least one buffered character, the ftp_get_line loop does not
consult the block flag: the flag is forced clear as soon as a character of
the line is consumed. -/
theorem getLineAux_flag_irrel (ls : Nat) (env : List RR) (c : Nat)
    (rest acc : List Nat) (f1 f2 : Bool) :
    getLineAux ls env (c :: rest) f1 acc = getLineAux ls env (c :: rest) f2 acc := by
  cases env <;> simp only [getLineAux] <;>
    cases hsc : scanBuf ls (c :: rest) acc <;> simp [hsc]

/-- C8: ftp_get_line returns AVERROR_EXIT exactly when the block flag was
set at entry and the buffer was already empty, before any character of the
line had been accumulated (given the transport contract that ffurl_read
itself never reports AVERROR_EXIT here, since the interrupt callback reads
the very flag that is clear on every such call).  Once the buffer holds a
character of the line, the result no longer depends on the flag at all: it
is forced clear for the rest of the call.  And the flag is restored to its
entry value on every return. -/
theorem ftp_get_line_block_flag (env : List RR) (buf : List Nat) (flag : Bool)
    (ls : Nat) (hne : noExitEnv env = true) :
    ((ftp_get_line env buf flag ls).1.res = AVERROR_exit_code ↔
      (flag = true ∧ buf = [])) ∧
    (ftp_get_line env buf flag ls).2 = flag ∧
    (buf ≠ [] →
      (ftp_get_line env buf true ls).1 = (ftp_get_line env buf false ls).1) := by
  refine ⟨⟨?_, ?_⟩, rfl, ?_⟩
  · intro hres
    cases hb : buf with
    | nil =>
      cases hf : flag with
      | true => exact ⟨rfl, rfl⟩
      | false =>
        exfalso
        apply getLineAux_no_exit ls env [] [] hne
        subst hb hf
        exact hres
    | cons c rest =>
      exfalso
      apply getLineAux_no_exit ls env (c :: rest) [] hne
      rw [← getLineAux_flag_irrel ls env c rest [] flag false]
      subst hb
      exact hres
  · rintro ⟨hf, hb⟩
    subst hf hb
    show (getLineAux ls env [] true []).res = AVERROR_exit_code
    cases env <;> simp [getLineAux, scanBuf]
  · intro hb
    cases hbb : buf with
    | nil => exact absurd hbb hb
    | cons c rest =>
      exact getLineAux_flag_irrel ls env c rest [] true false

/-- C8 witness: with the flag set and an empty buffer the call returns
AVERROR_EXIT; the flag component of the result equals the entry flag. -/
theorem ftp_get_line_block_flag_witness :
    noExitEnv [RR.data [104, 105, 10]] = true ∧
    (((ftp_get_line [RR.data [104, 105, 10]] [] true 1024).1.res =
        AVERROR_exit_code ↔ (true = true ∧ ([] : List Nat) = [])) ∧
     (ftp_get_line [RR.data [104, 105, 10]] [] true 1024).2 = true ∧
     (([] : List Nat) ≠ [] →
       (ftp_get_line [RR.data [104, 105, 10]] [] true 1024).1 =
         (ftp_get_line [RR.data [104, 105, 10]] [] false 1024).1)) :=
  ⟨by decide,
   ftp_get_line_block_flag [RR.data [104, 105, 10]] [] true 1024 (by decide)⟩
